import Mathlib

/-!
Shallow embedding of `FormatterRegistry` (src/src/FormatterRegistry.cc,
LSST `daf_persistence`).

The registry keeps two mappings: `_byName` (logical name of a Persistable
subclass to a formatter factory) and `_nameForType` (runtime type-identity
string, i.e. `typeid(...).name()`, to logical name).  `registerFormatter`
inserts into both; `lookupFormatter` is overloaded for `std::type_info`
(resolved through `_nameForType`, then delegating to the by-name overload)
and for `std::string` (resolved through `_byName`, extracting a per-name
sub-policy from the caller's `Policy` before invoking the factory).  Missing
lookups throw `lsst::pex::exceptions::InvalidParameter` with distinct
messages.

The container types of the two maps live in `FormatterRegistry.h`, which is
not part of the sources here; following the spec, the name map supports
several entries per key and lookups resolve to the first match, so both maps
are embedded as association lists where insertion appends and `find?` scans
from the front.  A `std::type_info` argument is embedded directly as its
`.name()` string, which is the only use the code makes of it.
-/

namespace DafPersistence

/-- A policy (configuration tree): a hierarchical key-value store supporting
existence checks (`exists`, here `existsKey` since `exists` is a Lean
keyword) and sub-tree retrieval (`getPolicy`).  The registry only reads
policies through these two operations. -/
inductive Policy : Type where
  | mk (entries : List (String × Policy)) : Policy

/-- The child list of a policy node. -/
def Policy.entries : Policy → List (String × Policy)
  | .mk es => es

/-- C++ `Policy::exists(key)`: does the tree have a sub-tree keyed `key`? -/
def Policy.existsKey (p : Policy) (k : String) : Bool :=
  p.entries.any (fun e => e.1 == k)

/-- C++ `Policy::getPolicy(key)`: the first sub-tree keyed `key`, if any
(`none` embeds the nullable `Policy::Ptr` that is never produced on the
code's guarded path, since `existsKey` is checked first). -/
def Policy.getPolicy (p : Policy) (k : String) : Option Policy :=
  (p.entries.find? (fun e => e.1 == k)).map (fun e => e.2)

/-- The exception type thrown on lookup failure
(`lsst::pex::exceptions::InvalidParameter`), carrying its message. -/
inductive PexException : Type where
  | invalidParameter (message : String) : PexException
deriving DecidableEq

/-- `Formatter::FactoryPtr`: given a nullable `Policy::Ptr`, produce a
formatter instance.  The formatter type is an arbitrary type parameter
`Fmt`. -/
def FactoryPtr (Fmt : Type) : Type := Option Policy → Fmt

/-- The registry state: the name-to-factory map `_byName` and the
type-identity-to-name map `_nameForType`, embedded as association lists
(insertion appends, lookup takes the first match from the front). -/
structure FormatterRegistry (Fmt : Type) : Type where
  _byName : List (String × FactoryPtr Fmt)
  _nameForType : List (String × String)

variable {Fmt : Type}

/-- The freshly constructed registry (both maps empty). -/
def FormatterRegistry.empty : FormatterRegistry Fmt := ⟨[], []⟩

/-- C++ `FormatterRegistry::registerFormatter`: insert
`(persistableName, factory)` into `_byName` and
`(persistableType.name(), persistableName)` into `_nameForType`. -/
def registerFormatter (r : FormatterRegistry Fmt) (persistableName : String)
    (persistableType : String) (factory : FactoryPtr Fmt) :
    FormatterRegistry Fmt :=
  { _byName := r._byName ++ [(persistableName, factory)]
    _nameForType := r._nameForType ++ [(persistableType, persistableName)] }

/-- The message of the `InvalidParameter` thrown by the `type_info` overload
when the type identity is not in `_nameForType`. -/
def unknownTypeMessage (typeName : String) : String :=
  "No Formatter registered for Persistable type: " ++ typeName

/-- The message of the `InvalidParameter` thrown by the `string` overload
when the name is not in `_byName`. -/
def unknownFormatterMessage (persistableName : String) : String :=
  "No Formatter registered for Persistable name: " ++ persistableName

/-- Observable events of a lookup: a call to `policy->getPolicy(name)`
(sub-tree extraction) and an invocation of a registered factory. -/
inductive Event (Fmt : Type) : Type where
  | getPolicyCall (name : String) (result : Option Policy) : Event Fmt
  | factoryCall (factory : FactoryPtr Fmt) (arg : Option Policy) : Event Fmt

/-- The `formatterPolicy` local of the by-name overload: null unless a
policy was supplied and it has a sub-tree keyed by the name, in which case it
is that sub-tree. -/
def formatterPolicyFor (policy : Option Policy) (persistableName : String) :
    Option Policy :=
  match policy with
  | some p =>
    if p.existsKey persistableName then p.getPolicy persistableName else none
  | none => none

/-- C++ `FormatterRegistry::lookupFormatter(std::string const&, Policy::Ptr)`,
instrumented with the list of events it performs: find the first `_byName`
entry for the name (throw `InvalidParameter` if none), extract
`formatterPolicy` from the caller's policy, and invoke the factory on it. -/
def lookupFormatterByNameT (r : FormatterRegistry Fmt)
    (persistableName : String) (policy : Option Policy) :
    Except PexException Fmt × List (Event Fmt) :=
  match r._byName.find? (fun e => e.1 == persistableName) with
  | none =>
    (.error (.invalidParameter (unknownFormatterMessage persistableName)), [])
  | some entry =>
    match policy with
    | some p =>
      if p.existsKey persistableName then
        (.ok (entry.2 (p.getPolicy persistableName)),
         [.getPolicyCall persistableName (p.getPolicy persistableName),
          .factoryCall entry.2 (p.getPolicy persistableName)])
      else
        (.ok (entry.2 none), [.factoryCall entry.2 none])
    | none => (.ok (entry.2 none), [.factoryCall entry.2 none])

/-- C++ `FormatterRegistry::lookupFormatter(std::type_info const&, Policy::Ptr)`,
instrumented: find the name for the type identity in `_nameForType` (throw
`InvalidParameter` if none) and delegate to the by-name overload. -/
def lookupFormatterByTypeT (r : FormatterRegistry Fmt)
    (persistableType : String) (policy : Option Policy) :
    Except PexException Fmt × List (Event Fmt) :=
  match r._nameForType.find? (fun e => e.1 == persistableType) with
  | none =>
    (.error (.invalidParameter (unknownTypeMessage persistableType)), [])
  | some entry => lookupFormatterByNameT r entry.2 policy

/-- The by-name lookup's returned value (result of the instrumented
version). -/
def lookupFormatterByName (r : FormatterRegistry Fmt)
    (persistableName : String) (policy : Option Policy) :
    Except PexException Fmt :=
  (lookupFormatterByNameT r persistableName policy).1

/-- The by-type lookup's returned value (result of the instrumented
version). -/
def lookupFormatterByType (r : FormatterRegistry Fmt)
    (persistableType : String) (policy : Option Policy) :
    Except PexException Fmt :=
  (lookupFormatterByTypeT r persistableType policy).1

/-- One call to `registerFormatter`, for describing registration
histories. -/
structure RegCall (Fmt : Type) : Type where
  persistableName : String
  persistableType : String
  factory : FactoryPtr Fmt

/-- The registry produced by a sequence of `registerFormatter` calls starting
from the freshly constructed registry. -/
def buildRegistry (calls : List (RegCall Fmt)) : FormatterRegistry Fmt :=
  calls.foldl
    (fun r c => registerFormatter r c.persistableName c.persistableType
      c.factory)
    FormatterRegistry.empty

/-- The operations a client can perform on the registry. -/
inductive Op (Fmt : Type) : Type where
  | register (persistableName persistableType : String)
      (factory : FactoryPtr Fmt) : Op Fmt
  | lookupByType (persistableType : String) (policy : Option Policy) : Op Fmt
  | lookupByName (persistableName : String) (policy : Option Policy) : Op Fmt

/-- The state transition of one operation.  The two lookup overloads only
read the maps (their bodies consist of `find` calls, a possible throw, policy
reads and a factory invocation), so they leave the state unchanged;
`registerFormatter` inserts into both maps. -/
def applyOp (r : FormatterRegistry Fmt) : Op Fmt → FormatterRegistry Fmt
  | .register n t f => registerFormatter r n t f
  | .lookupByType _ _ => r
  | .lookupByName _ _ => r

/-- The registry state after a sequence of operations. -/
def runOps (r : FormatterRegistry Fmt) (ops : List (Op Fmt)) :
    FormatterRegistry Fmt :=
  ops.foldl applyOp r

/-- The invariant of section 3 of the spec: every name in the
type-identity map is a key of the name map. -/
def RegistryInvariant (r : FormatterRegistry Fmt) : Prop :=
  ∀ e ∈ r._nameForType, ∃ f, (e.2, f) ∈ r._byName

/-! Helper lemmas about `find?` on association lists. -/

theorem find?_key_eq_none {α : Type} (l : List (String × α)) (k : String)
    (h : ∀ e ∈ l, e.1 ≠ k) : l.find? (fun e => e.1 == k) = none := by
  rw [List.find?_eq_none]
  intro x hx
  simpa using h x hx

theorem find?_fresh_append {α : Type} (l : List (String × α)) (k : String)
    (v : α) (h : ∀ e ∈ l, e.1 ≠ k) :
    (l ++ [(k, v)]).find? (fun e => e.1 == k) = some (k, v) := by
  rw [List.find?_append, find?_key_eq_none l k h]
  simp [List.find?]

/-! Helper lemmas about the shapes a lookup can take. -/

theorem lookupFormatterByNameT_found (r : FormatterRegistry Fmt)
    (persistableName : String) (f : FactoryPtr Fmt) (policy : Option Policy)
    (h : r._byName.find? (fun e => e.1 == persistableName) =
      some (persistableName, f)) :
    (lookupFormatterByNameT r persistableName policy).1 =
      .ok (f (formatterPolicyFor policy persistableName)) ∧
    Event.factoryCall f (formatterPolicyFor policy persistableName) ∈
      (lookupFormatterByNameT r persistableName policy).2 := by
  unfold lookupFormatterByNameT
  rw [h]
  cases policy with
  | none => simp [formatterPolicyFor]
  | some p =>
    by_cases hex : p.existsKey persistableName
    · simp [formatterPolicyFor, hex]
    · simp [formatterPolicyFor, hex]

theorem lookupFormatterByNameT_not_found (r : FormatterRegistry Fmt)
    (persistableName : String) (policy : Option Policy)
    (h : ∀ e ∈ r._byName, e.1 ≠ persistableName) :
    lookupFormatterByNameT r persistableName policy =
      (.error (.invalidParameter (unknownFormatterMessage persistableName)),
       []) := by
  unfold lookupFormatterByNameT
  rw [find?_key_eq_none _ _ h]

theorem lookupFormatterByTypeT_not_found (r : FormatterRegistry Fmt)
    (persistableType : String) (policy : Option Policy)
    (h : ∀ e ∈ r._nameForType, e.1 ≠ persistableType) :
    lookupFormatterByTypeT r persistableType policy =
      (.error (.invalidParameter (unknownTypeMessage persistableType)),
       []) := by
  unfold lookupFormatterByTypeT
  rw [find?_key_eq_none _ _ h]

/-! Helper lemmas relating operation histories to map entries. -/

theorem mem_nameForType_runOps {r : FormatterRegistry Fmt}
    {ops : List (Op Fmt)} {e : String × String}
    (he : e ∈ (runOps r ops)._nameForType) :
    e ∈ r._nameForType ∨ ∃ f, Op.register e.2 e.1 f ∈ ops := by
  induction ops generalizing r with
  | nil => exact Or.inl he
  | cons op ops ih =>
    rcases ih (r := applyOp r op) he with h1 | h1
    · cases op with
      | register n t f =>
        rcases List.mem_append.mp h1 with h2 | h2
        · exact Or.inl h2
        · have h3 := List.mem_singleton.mp h2
          subst h3
          exact Or.inr ⟨f, List.mem_cons_self _ _⟩
      | lookupByType t p => exact Or.inl h1
      | lookupByName n p => exact Or.inl h1
    · obtain ⟨f, hf⟩ := h1
      exact Or.inr ⟨f, List.mem_cons_of_mem _ hf⟩

theorem mem_byName_runOps {r : FormatterRegistry Fmt}
    {ops : List (Op Fmt)} {e : String × FactoryPtr Fmt}
    (he : e ∈ (runOps r ops)._byName) :
    e ∈ r._byName ∨ ∃ t, Op.register e.1 t e.2 ∈ ops := by
  induction ops generalizing r with
  | nil => exact Or.inl he
  | cons op ops ih =>
    rcases ih (r := applyOp r op) he with h1 | h1
    · cases op with
      | register n t f =>
        rcases List.mem_append.mp h1 with h2 | h2
        · exact Or.inl h2
        · have h3 := List.mem_singleton.mp h2
          subst h3
          exact Or.inr ⟨t, List.mem_cons_self _ _⟩
      | lookupByType t p => exact Or.inl h1
      | lookupByName n p => exact Or.inl h1
    · obtain ⟨t, ht⟩ := h1
      exact Or.inr ⟨t, List.mem_cons_of_mem _ ht⟩

/-- The two failure messages never coincide: the fixed prefixes have equal
length and differ, so the appended results differ for all arguments. -/
theorem unknownTypeMessage_ne_unknownFormatterMessage (t n : String) :
    unknownTypeMessage t ≠ unknownFormatterMessage n := by
  intro h
  have h2 := congrArg String.data h
  unfold unknownTypeMessage unknownFormatterMessage at h2
  rw [String.data_append, String.data_append] at h2
  have h3 := List.append_inj h2 (by decide)
  exact absurd h3.1 (by decide)

/-- Claim C2: starting from the empty registry, after any sequence of
register and lookup operations none of whose registrations used the type
identity `t`, the by-type lookup of `t` fails with the unknown-type
`InvalidParameter` error, for every policy argument. -/
theorem c2_unknown_type_fails (ops : List (Op Fmt)) (t : String)
    (policy : Option Policy)
    (h : ∀ n t' f, Op.register n t' f ∈ ops → t' ≠ t) :
    lookupFormatterByType (runOps FormatterRegistry.empty ops) t policy =
      .error (.invalidParameter (unknownTypeMessage t)) := by
  have hkeys : ∀ e ∈ (runOps (FormatterRegistry.empty : FormatterRegistry Fmt)
      ops)._nameForType, e.1 ≠ t := by
    intro e he
    rcases mem_nameForType_runOps he with h1 | h1
    · exact absurd h1 (List.not_mem_nil e)
    · obtain ⟨f, hf⟩ := h1
      exact h e.2 e.1 f hf
  unfold lookupFormatterByType
  rw [lookupFormatterByTypeT_not_found _ _ _ hkeys]

/-- Witness for C2 at a registry holding one registration. -/
theorem c2_unknown_type_fails_witness :
    lookupFormatterByType
        (runOps (FormatterRegistry.empty : FormatterRegistry Nat)
          [Op.register "Foo" "TFoo" (fun _ => 7)]) "X" none =
      .error (.invalidParameter (unknownTypeMessage "X")) :=
  c2_unknown_type_fails [Op.register "Foo" "TFoo" (fun _ => 7)] "X" none
    (by
      intro n t' f hmem
      have h := List.mem_singleton.mp hmem
      injection h with h1 h2 h3
      subst h2
      decide)

/-- Claim C3: starting from the empty registry, after any sequence of
register and lookup operations none of whose registrations used the name
`n`, the by-name lookup of `n` fails with the unknown-formatter
`InvalidParameter` error, for every policy argument. -/
theorem c3_unknown_name_fails (ops : List (Op Fmt)) (n : String)
    (policy : Option Policy)
    (h : ∀ n' t f, Op.register n' t f ∈ ops → n' ≠ n) :
    lookupFormatterByName (runOps FormatterRegistry.empty ops) n policy =
      .error (.invalidParameter (unknownFormatterMessage n)) := by
  have hkeys : ∀ e ∈ (runOps (FormatterRegistry.empty : FormatterRegistry Fmt)
      ops)._byName, e.1 ≠ n := by
    intro e he
    rcases mem_byName_runOps he with h1 | h1
    · exact absurd h1 (List.not_mem_nil e)
    · obtain ⟨t, ht⟩ := h1
      exact h e.1 t e.2 ht
  unfold lookupFormatterByName
  rw [lookupFormatterByNameT_not_found _ _ _ hkeys]

/-- Witness for C3 at a registry holding one registration. -/
theorem c3_unknown_name_fails_witness :
    lookupFormatterByName
        (runOps (FormatterRegistry.empty : FormatterRegistry Nat)
          [Op.register "Foo" "TFoo" (fun _ => 7)]) "Bar" none =
      .error (.invalidParameter (unknownFormatterMessage "Bar")) :=
  c3_unknown_name_fails [Op.register "Foo" "TFoo" (fun _ => 7)] "Bar" none
    (by
      intro n' t f hmem
      have h := List.mem_singleton.mp hmem
      injection h with h1 h2 h3
      subst h1
      decide)

/-- Claim C7: a failing by-type lookup and a failing by-name lookup both
report an error value, and the two error values are never equal, so the
caller can tell the failure kinds apart. -/
theorem c7_errors_distinguishable (r r' : FormatterRegistry Fmt)
    (t n : String) (p p' : Option Policy)
    (ht : ∀ e ∈ r._nameForType, e.1 ≠ t)
    (hn : ∀ e ∈ r'._byName, e.1 ≠ n) :
    lookupFormatterByType r t p =
      .error (.invalidParameter (unknownTypeMessage t)) ∧
    lookupFormatterByName r' n p' =
      .error (.invalidParameter (unknownFormatterMessage n)) ∧
    PexException.invalidParameter (unknownTypeMessage t) ≠
      PexException.invalidParameter (unknownFormatterMessage n) := by
  refine ⟨?_, ?_, ?_⟩
  · unfold lookupFormatterByType
    rw [lookupFormatterByTypeT_not_found _ _ _ ht]
  · unfold lookupFormatterByName
    rw [lookupFormatterByNameT_not_found _ _ _ hn]
  · intro h
    injection h with h1
    exact unknownTypeMessage_ne_unknownFormatterMessage t n h1

/-- Witness for C7 at the empty registry, with the same string used as
unregistered type identity and as unregistered name. -/
theorem c7_errors_distinguishable_witness :
    lookupFormatterByType (FormatterRegistry.empty : FormatterRegistry Nat)
        "X" none =
      .error (.invalidParameter (unknownTypeMessage "X")) ∧
    lookupFormatterByName (FormatterRegistry.empty : FormatterRegistry Nat)
        "X" none =
      .error (.invalidParameter (unknownFormatterMessage "X")) ∧
    PexException.invalidParameter (unknownTypeMessage "X") ≠
      PexException.invalidParameter (unknownFormatterMessage "X") :=
  c7_errors_distinguishable FormatterRegistry.empty FormatterRegistry.empty
    "X" "X" none none (by intro e he; exact absurd he (List.not_mem_nil e))
    (by intro e he; exact absurd he (List.not_mem_nil e))

/-- Claim C10: whenever a lookup (by name or by type) returns an error, its
event trace is empty: no factory was invoked and no policy sub-tree was
extracted before the error. -/
theorem c10_error_before_any_interaction (r : FormatterRegistry Fmt)
    (t n : String) (p p' : Option Policy) (e e' : PexException) :
    ((lookupFormatterByNameT r n p).1 = .error e →
      (lookupFormatterByNameT r n p).2 = []) ∧
    ((lookupFormatterByTypeT r t p').1 = .error e' →
      (lookupFormatterByTypeT r t p').2 = []) := by
  have key : ∀ (r' : FormatterRegistry Fmt) (n' : String) (q : Option Policy)
      (ex : PexException), (lookupFormatterByNameT r' n' q).1 = .error ex →
      (lookupFormatterByNameT r' n' q).2 = [] := by
    intro r' n' q ex h
    unfold lookupFormatterByNameT at h ⊢
    cases hf : r'._byName.find? (fun x => x.1 == n') with
    | none => simp [hf]
    | some entry =>
      rw [hf] at h
      cases q with
      | none => simp at h
      | some pol =>
        by_cases hex : pol.existsKey n'
        · simp [hex] at h
        · simp [hex] at h
  refine ⟨key r n p e, ?_⟩
  intro h
  unfold lookupFormatterByTypeT at h ⊢
  cases hf : r._nameForType.find? (fun x => x.1 == t) with
  | none => simp [hf]
  | some entry =>
    rw [hf] at h
    exact key r entry.2 p' e' h

/-- Witness for C10: both failing lookups on a one-entry registry have an
empty event trace. -/
theorem c10_error_before_any_interaction_witness :
    (lookupFormatterByNameT
        (registerFormatter (FormatterRegistry.empty : FormatterRegistry Nat)
          "Foo" "TFoo" (fun _ => 7)) "Bar"
        (some (Policy.mk [("Bar", Policy.mk [])]))).2 = [] ∧
    (lookupFormatterByTypeT
        (registerFormatter (FormatterRegistry.empty : FormatterRegistry Nat)
          "Foo" "TFoo" (fun _ => 7)) "TBar" none).2 = [] :=
  ⟨(c10_error_before_any_interaction
      (registerFormatter FormatterRegistry.empty "Foo" "TFoo" (fun _ => 7))
      "TBar" "Bar" (some (Policy.mk [("Bar", Policy.mk [])])) none
      (.invalidParameter (unknownFormatterMessage "Bar"))
      (.invalidParameter (unknownTypeMessage "TBar"))).1 rfl,
   (c10_error_before_any_interaction
      (registerFormatter FormatterRegistry.empty "Foo" "TFoo" (fun _ => 7))
      "TBar" "Bar" (some (Policy.mk [("Bar", Policy.mk [])])) none
      (.invalidParameter (unknownFormatterMessage "Bar"))
      (.invalidParameter (unknownTypeMessage "TBar"))).2 rfl⟩

/-- Counterexample to claim C1 as stated: register `("Dup", "T", fun _ => 0)`
and then `("Dup", "T", fun _ => 1)`; the subsequent by-name lookup of
`"Dup"` succeeds but returns the first factory's result `0`, not the result
`1` of invoking the second registered factory. -/
theorem c1_counterexample_duplicate_name :
    lookupFormatterByName
        (registerFormatter
          (registerFormatter (FormatterRegistry.empty : FormatterRegistry Nat)
            "Dup" "T" (fun _ => 0)) "Dup" "T" (fun _ => 1)) "Dup" none =
      .ok (((fun _ => 0) : FactoryPtr Nat) none) ∧
    lookupFormatterByName
        (registerFormatter
          (registerFormatter (FormatterRegistry.empty : FormatterRegistry Nat)
            "Dup" "T" (fun _ => 0)) "Dup" "T" (fun _ => 1)) "Dup" none ≠
      .ok (((fun _ => 1) : FactoryPtr Nat) none) := by
  constructor
  · rfl
  · rw [show lookupFormatterByName
        (registerFormatter
          (registerFormatter (FormatterRegistry.empty : FormatterRegistry Nat)
            "Dup" "T" (fun _ => 0)) "Dup" "T" (fun _ => 1)) "Dup" none =
      .ok (((fun _ => 0) : FactoryPtr Nat) none) from rfl]
    simp

/-- Claim C1 (amended): registering `(n, t, f)` over a registry in which
neither the name `n` nor the type identity `t` is already registered makes
both lookups succeed with the result of invoking `f` on the extracted
policy, and the instrumented traces record the invocation of `f`. -/
theorem c1_register_lookup_roundtrip (r : FormatterRegistry Fmt)
    (n t : String) (f : FactoryPtr Fmt) (policy : Option Policy)
    (hn : ∀ e ∈ r._byName, e.1 ≠ n) (ht : ∀ e ∈ r._nameForType, e.1 ≠ t) :
    lookupFormatterByName (registerFormatter r n t f) n policy =
      .ok (f (formatterPolicyFor policy n)) ∧
    lookupFormatterByType (registerFormatter r n t f) t policy =
      .ok (f (formatterPolicyFor policy n)) ∧
    Event.factoryCall f (formatterPolicyFor policy n) ∈
      (lookupFormatterByNameT (registerFormatter r n t f) n policy).2 ∧
    Event.factoryCall f (formatterPolicyFor policy n) ∈
      (lookupFormatterByTypeT (registerFormatter r n t f) t policy).2 := by
  have hbn : (registerFormatter r n t f)._byName.find?
      (fun e => e.1 == n) = some (n, f) := find?_fresh_append _ _ _ hn
  have hnt : (registerFormatter r n t f)._nameForType.find?
      (fun e => e.1 == t) = some (t, n) := find?_fresh_append _ _ _ ht
  have hname := lookupFormatterByNameT_found (registerFormatter r n t f)
    n f policy hbn
  have htype : lookupFormatterByTypeT (registerFormatter r n t f) t policy =
      lookupFormatterByNameT (registerFormatter r n t f) n policy := by
    unfold lookupFormatterByTypeT
    rw [hnt]
  refine ⟨hname.1, ?_, hname.2, ?_⟩
  · unfold lookupFormatterByType
    rw [htype]
    exact hname.1
  · rw [htype]
    exact hname.2

/-- Witness for the amended C1 at a fresh registration over the empty
registry, with a policy carrying a sub-tree for the registered name. -/
theorem c1_register_lookup_roundtrip_witness :
    lookupFormatterByName
        (registerFormatter (FormatterRegistry.empty : FormatterRegistry Nat)
          "Foo" "TFoo" (fun _ => 7)) "Foo"
        (some (Policy.mk [("Foo", Policy.mk [])])) =
      .ok ((fun _ => (7 : Nat))
        (formatterPolicyFor (some (Policy.mk [("Foo", Policy.mk [])]))
          "Foo")) ∧
    lookupFormatterByType
        (registerFormatter (FormatterRegistry.empty : FormatterRegistry Nat)
          "Foo" "TFoo" (fun _ => 7)) "TFoo"
        (some (Policy.mk [("Foo", Policy.mk [])])) =
      .ok ((fun _ => (7 : Nat))
        (formatterPolicyFor (some (Policy.mk [("Foo", Policy.mk [])]))
          "Foo")) ∧
    Event.factoryCall (fun _ => (7 : Nat))
        (formatterPolicyFor (some (Policy.mk [("Foo", Policy.mk [])]))
          "Foo") ∈
      (lookupFormatterByNameT
        (registerFormatter (FormatterRegistry.empty : FormatterRegistry Nat)
          "Foo" "TFoo" (fun _ => 7)) "Foo"
        (some (Policy.mk [("Foo", Policy.mk [])]))).2 ∧
    Event.factoryCall (fun _ => (7 : Nat))
        (formatterPolicyFor (some (Policy.mk [("Foo", Policy.mk [])]))
          "Foo") ∈
      (lookupFormatterByTypeT
        (registerFormatter (FormatterRegistry.empty : FormatterRegistry Nat)
          "Foo" "TFoo" (fun _ => 7)) "TFoo"
        (some (Policy.mk [("Foo", Policy.mk [])]))).2 :=
  c1_register_lookup_roundtrip FormatterRegistry.empty "Foo" "TFoo"
    (fun _ => 7) (some (Policy.mk [("Foo", Policy.mk [])]))
    (by intro e he; exact absurd he (List.not_mem_nil e))
    (by intro e he; exact absurd he (List.not_mem_nil e))

/-- Claim C4: when the by-name lookup of `n` resolves to factory `f`, the
lookup with a supplied policy in which `n` exists invokes `f` with exactly
the extracted sub-tree `p.getPolicy n` (recording the extraction); with a
policy lacking `n`, or with no policy, it invokes `f` with the absent
configuration `none` and extracts nothing. -/
theorem c4_config_passthrough (r : FormatterRegistry Fmt) (n : String)
    (f : FactoryPtr Fmt) (p : Policy)
    (h : r._byName.find? (fun e => e.1 == n) = some (n, f)) :
    (p.existsKey n = true →
      lookupFormatterByNameT r n (some p) =
        (.ok (f (p.getPolicy n)),
         [.getPolicyCall n (p.getPolicy n),
          .factoryCall f (p.getPolicy n)])) ∧
    (p.existsKey n = false →
      lookupFormatterByNameT r n (some p) =
        (.ok (f none), [.factoryCall f none])) ∧
    lookupFormatterByNameT r n none =
      (.ok (f none), [.factoryCall f none]) := by
  refine ⟨?_, ?_, ?_⟩
  · intro hex
    unfold lookupFormatterByNameT
    rw [h]
    simp [hex]
  · intro hex
    unfold lookupFormatterByNameT
    rw [h]
    simp [hex]
  · unfold lookupFormatterByNameT
    rw [h]

/-- Witness for C4 at a one-entry registry and a policy that has a sub-tree
keyed by the registered name. -/
theorem c4_config_passthrough_witness :
    ((registerFormatter (FormatterRegistry.empty : FormatterRegistry Nat)
        "Foo" "TFoo" (fun _ => 7))._byName.find? (fun e => e.1 == "Foo") =
      some ("Foo", fun _ => 7)) ∧
    ((Policy.mk [("Foo", Policy.mk [("x", Policy.mk [])])]).existsKey "Foo" =
        true →
      lookupFormatterByNameT
          (registerFormatter (FormatterRegistry.empty : FormatterRegistry Nat)
            "Foo" "TFoo" (fun _ => 7)) "Foo"
          (some (Policy.mk [("Foo", Policy.mk [("x", Policy.mk [])])])) =
        (.ok ((fun _ => (7 : Nat))
           ((Policy.mk [("Foo", Policy.mk [("x", Policy.mk [])])]).getPolicy
             "Foo")),
         [.getPolicyCall "Foo"
            ((Policy.mk [("Foo", Policy.mk [("x", Policy.mk [])])]).getPolicy
              "Foo"),
          .factoryCall (fun _ => (7 : Nat))
            ((Policy.mk [("Foo", Policy.mk [("x", Policy.mk [])])]).getPolicy
              "Foo")])) ∧
    ((Policy.mk [("Foo", Policy.mk [("x", Policy.mk [])])]).existsKey "Foo" =
        false →
      lookupFormatterByNameT
          (registerFormatter (FormatterRegistry.empty : FormatterRegistry Nat)
            "Foo" "TFoo" (fun _ => 7)) "Foo"
          (some (Policy.mk [("Foo", Policy.mk [("x", Policy.mk [])])])) =
        (.ok (((fun _ => 7) : FactoryPtr Nat) none),
         [.factoryCall (fun _ => (7 : Nat)) none])) ∧
    lookupFormatterByNameT
        (registerFormatter (FormatterRegistry.empty : FormatterRegistry Nat)
          "Foo" "TFoo" (fun _ => 7)) "Foo" none =
      (.ok (((fun _ => 7) : FactoryPtr Nat) none),
       [.factoryCall (fun _ => (7 : Nat)) none]) :=
  ⟨rfl,
   c4_config_passthrough
     (registerFormatter FormatterRegistry.empty "Foo" "TFoo" (fun _ => 7))
     "Foo" (fun _ => 7)
     (Policy.mk [("Foo", Policy.mk [("x", Policy.mk [])])]) rfl⟩

/-- Claim C5: registering `f1` and then a distinct `f2` under the same name
over a registry where that name is fresh makes the subsequent by-name lookup
return the result of invoking the first-registered factory `f1`. -/
theorem c5_first_match_wins (r : FormatterRegistry Fmt) (n t1 t2 : String)
    (f1 f2 : FactoryPtr Fmt) (policy : Option Policy)
    (hfresh : ∀ e ∈ r._byName, e.1 ≠ n) (hne : f1 ≠ f2) :
    lookupFormatterByName
        (registerFormatter (registerFormatter r n t1 f1) n t2 f2) n policy =
      .ok (f1 (formatterPolicyFor policy n)) := by
  have hfind : (registerFormatter (registerFormatter r n t1 f1) n t2
      f2)._byName.find? (fun e => e.1 == n) = some (n, f1) := by
    show ((r._byName ++ [(n, f1)]) ++ [(n, f2)]).find? (fun e => e.1 == n) =
      some (n, f1)
    rw [List.find?_append, find?_fresh_append _ _ _ hfresh]
    rfl
  exact (lookupFormatterByNameT_found _ n f1 policy hfind).1

/-- Witness for C5 with the constant factories `0` and `1` registered under
the name `"Dup"` over the empty registry. -/
theorem c5_first_match_wins_witness :
    (((fun _ => 0) : FactoryPtr Nat) ≠ ((fun _ => 1) : FactoryPtr Nat)) ∧
    lookupFormatterByName
        (registerFormatter
          (registerFormatter (FormatterRegistry.empty : FormatterRegistry Nat)
            "Dup" "T" (fun _ => 0)) "Dup" "T" (fun _ => 1)) "Dup" none =
      .ok (((fun _ => 0) : FactoryPtr Nat) (formatterPolicyFor none "Dup")) :=
  ⟨fun h => absurd (congrFun h none) (by decide),
   c5_first_match_wins FormatterRegistry.empty "Dup" "T" "T"
     (fun _ => 0) (fun _ => 1) none
     (by intro e he; exact absurd he (List.not_mem_nil e))
     (fun h => absurd (congrFun h none) (by decide))⟩

/-- Registration preserves the invariant; lookups do not touch the state. -/
theorem registryInvariant_applyOp {r : FormatterRegistry Fmt}
    (h : RegistryInvariant r) (op : Op Fmt) :
    RegistryInvariant (applyOp r op) := by
  cases op with
  | register n t f =>
    intro e he
    have he' : e ∈ r._nameForType ++ [(t, n)] := he
    rcases List.mem_append.mp he' with h1 | h1
    · obtain ⟨g, hg⟩ := h e h1
      exact ⟨g, List.mem_append_left _ hg⟩
    · have h2 := List.mem_singleton.mp h1
      subst h2
      exact ⟨f, List.mem_append_right _ (List.mem_singleton.mpr rfl)⟩
  | lookupByType t p => exact h
  | lookupByName n p => exact h

/-- The invariant is preserved along any operation sequence. -/
theorem registryInvariant_runOps (ops : List (Op Fmt))
    (r : FormatterRegistry Fmt) (h : RegistryInvariant r) :
    RegistryInvariant (runOps r ops) := by
  induction ops generalizing r with
  | nil => exact h
  | cons op ops ih => exact ih _ (registryInvariant_applyOp h op)

/-- Claim C6: in every state reachable from the empty registry by register
and lookup operations, every name appearing in `_nameForType` is a key of
`_byName`. -/
theorem c6_advertised_types_have_factories (ops : List (Op Fmt)) :
    RegistryInvariant (runOps FormatterRegistry.empty ops) :=
  registryInvariant_runOps ops FormatterRegistry.empty
    (fun e he => absurd he (List.not_mem_nil e))

/-- Witness for C6 at a one-registration history: the name advertised for
`"TFoo"` has a factory in the name map. -/
theorem c6_advertised_types_have_factories_witness :
    ∃ f, ("Foo", f) ∈
      (runOps (FormatterRegistry.empty : FormatterRegistry Nat)
        [Op.register "Foo" "TFoo" (fun _ => 7)])._byName :=
  c6_advertised_types_have_factories [Op.register "Foo" "TFoo" (fun _ => 7)]
    ("TFoo", "Foo") (by simp [runOps, applyOp, registerFormatter,
      FormatterRegistry.empty])

/-- Claim C8: both lookup operations leave the registry state unchanged (the
C++ bodies only perform `find` calls, policy reads, a possible throw and a
factory invocation), and a registration leaves every existing entry of both
maps in place unchanged while growing each map by exactly one entry. -/
theorem c8_lookups_pure_registrations_append (r : FormatterRegistry Fmt)
    (n t tn pn : String) (f : FactoryPtr Fmt) (p p' : Option Policy) :
    applyOp r (Op.lookupByType tn p) = r ∧
    applyOp r (Op.lookupByName pn p') = r ∧
    (applyOp r (Op.register n t f))._byName.take r._byName.length =
      r._byName ∧
    (applyOp r (Op.register n t f))._byName.length =
      r._byName.length + 1 ∧
    (applyOp r (Op.register n t f))._nameForType.take
        r._nameForType.length = r._nameForType ∧
    (applyOp r (Op.register n t f))._nameForType.length =
      r._nameForType.length + 1 := by
  refine ⟨rfl, rfl, ?_, ?_, ?_, ?_⟩
  · exact List.take_left _ _
  · simp [applyOp, registerFormatter]
  · exact List.take_left _ _
  · simp [applyOp, registerFormatter]

/-- The function-scoped static pointer inside `getInstance`, embedded as a
cell that is `none` before the first call and holds the registry
afterwards. -/
structure StaticCell (Fmt : Type) : Type where
  registry : Option (FormatterRegistry Fmt)

/-- The cell before any call to `getInstance` (process start). -/
def StaticCell.initial : StaticCell Fmt := ⟨none⟩

/-- C++ `FormatterRegistry::getInstance`: on the first call construct the
registry (`new FormatterRegistry`, default constructor, empty maps) and
store it in the static cell; on every later call return the stored
registry unchanged.  The returned registry and the updated cell are given
as a pair. -/
def getInstance (s : StaticCell Fmt) :
    FormatterRegistry Fmt × StaticCell Fmt :=
  match s.registry with
  | none => (FormatterRegistry.empty, ⟨some FormatterRegistry.empty⟩)
  | some r => (r, s)

/-- A registration performed through the shared instance: obtain the
instance and register into it (the cell holds the updated registry, since
all holders alias the single instance). -/
def registerViaInstance (s : StaticCell Fmt) (n t : String)
    (f : FactoryPtr Fmt) : StaticCell Fmt :=
  ⟨some (registerFormatter (getInstance s).1 n t f)⟩

/-- Claim C9: the first call to `getInstance` lazily constructs the registry
and stores it; any two consecutive calls return the same registry and leave
the cell unchanged; and a registration made through the shared instance is
visible to every later `getInstance` caller. -/
theorem c9_getInstance_singleton (s : StaticCell Fmt) (n t : String)
    (f : FactoryPtr Fmt) :
    getInstance (StaticCell.initial : StaticCell Fmt) =
      (FormatterRegistry.empty, ⟨some FormatterRegistry.empty⟩) ∧
    (getInstance (getInstance s).2).1 = (getInstance s).1 ∧
    (getInstance (getInstance s).2).2 = (getInstance s).2 ∧
    (getInstance (registerViaInstance s n t f)).1 =
      registerFormatter (getInstance s).1 n t f := by
  obtain ⟨o⟩ := s
  cases o <;>
    simp [getInstance, registerViaInstance, StaticCell.initial]

end DafPersistence
